import Mathlib

/-!
Verification development for the Windrush job-recommendation system.

The repository's frontend (Next.js, under src/frontend) is embedded from the
TypeScript sources directly.  The matching & scoring backend described in the
specification (ScoringEngine, RecommendationStore, FeedbackProcessor,
PreferenceStore validation) is not present in the repository sources; those
components are modelled from the specification text, as marked on each
definition.
-/

namespace Windrush

/-! ### Data model (spec section 3 and src/frontend/src/types/api.ts) -/

/-- Experience levels, ordered entry < junior < mid < senior < lead < executive. -/
inductive ExperienceLevel
  | entry
  | junior
  | mid
  | senior
  | lead
  | executive
deriving DecidableEq, Repr

/-- Position of a level on the ordered scale. -/
def ExperienceLevel.rank : ExperienceLevel → Nat
  | .entry => 0
  | .junior => 1
  | .mid => 2
  | .senior => 3
  | .lead => 4
  | .executive => 5

/-- Work-location mode of a job. -/
inductive LocationType
  | on_site
  | remote
  | hybrid
deriving DecidableEq, Repr

/-- The four feedback enum values. -/
inductive FeedbackValue
  | helpful
  | not_helpful
  | not_interested
  | already_applied
deriving DecidableEq, Repr

/-- User job preferences (spec section 3, fields used by the core). -/
structure UserJobPreference where
  preferred_locations : List String
  open_to_remote : Bool
  open_to_hybrid : Bool
  preferred_industries : List String
  preferred_company_sizes : List String
  experience_level : ExperienceLevel
  min_salary : Option Nat
  max_salary : Option Nat
  key_skills : List String
  avoid_keywords : List String
  requires_sponsorship : Bool
  max_recommendations : Nat
deriving DecidableEq, Repr

/-- User profile supplied by the Identity/Profile Store. -/
structure Profile where
  skills : List String
  experience_level : ExperienceLevel
deriving DecidableEq, Repr

/-- A job posting (external entity, fields used by the core). -/
structure Job where
  id : Nat
  title : String
  description : String
  requirements : String
  location : String
  location_type : LocationType
  salary_min : Option Nat
  salary_max : Option Nat
  required_skills : List String
  experience_level : ExperienceLevel
  industry : String
  company_size : String
  visa_sponsorship_available : Bool
  is_featured : Bool
deriving DecidableEq, Repr

/-- The five scoring categories. -/
inductive Category
  | skills
  | location
  | salary
  | experience
  | company
deriving DecidableEq, Repr

/-- The categories, listed in priority order skills > location > salary >
experience > company. -/
def Category.all : List Category :=
  [.skills, .location, .salary, .experience, .company]

/-- Tie-break priority of a category (lower is higher priority). -/
def priorityRank : Category → Nat
  | .skills => 0
  | .location => 1
  | .salary => 2
  | .experience => 3
  | .company => 4

/-- Default weight of a category, in percent (spec section 4.2 table). -/
def weight : Category → Nat
  | .skills => 30
  | .location => 20
  | .salary => 20
  | .experience => 15
  | .company => 15

/-! ### String containment helper

Kernel-evaluable substring test on the underlying character lists, used for
partial location matches and avoid-keyword detection. -/

/-- Does the first character list start with the second? -/
def leadsWith : List Char → List Char → Bool
  | _, [] => true
  | [], _ :: _ => false
  | a :: as, b :: bs => a = b && leadsWith as bs

/-- Does the pattern occur inside the haystack (contiguously)? -/
def occursIn (hay pat : List Char) : Bool :=
  match hay with
  | [] => leadsWith [] pat
  | _ :: rest => leadsWith hay pat || occursIn rest pat

/-- Substring test on strings. -/
def strOccurs (hay pat : String) : Bool :=
  occursIn hay.data pat.data

/-! ### ScoringEngine (modelled from the spec)

The scoring backend is not part of the repository sources; every definition in
this section is modelled from spec section 4.2. -/

/-- Modelled from the spec: number of the job's required skills that appear in
the user's `key_skills` (the `matched` count of the skills signal). -/
def countMatched (key required : List String) : Nat :=
  (required.filter (fun s => key.contains s)).length

/-- Modelled from the spec: skills sub-score, overlap between `key_skills` and
the job's required skills, `matched / max(1, required_count)` scaled to 0-100. -/
def skillsScore (p : UserJobPreference) (j : Job) : Nat :=
  100 * countMatched p.key_skills j.required_skills / max 1 j.required_skills.length

/-- Modelled from the spec: location sub-score.  Full credit if remote/hybrid
is accepted and the job matches that mode, or the user has no location
constraint, or an exact location match; half credit on a partial string
match; zero otherwise. -/
def locationScore (p : UserJobPreference) (j : Job) : Nat :=
  if (j.location_type = .remote ∧ p.open_to_remote) ∨
     (j.location_type = .hybrid ∧ p.open_to_hybrid) then 100
  else if p.preferred_locations = [] then 100
  else if p.preferred_locations.contains j.location then 100
  else if p.preferred_locations.any
      (fun loc => strOccurs j.location loc || strOccurs loc j.location) then 50
  else 0

/-- Modelled from the spec: salary sub-score.  100 when one range fully covers
the other (full containment in either direction); otherwise partial credit by
overlap fraction of the job's range; 50 (neutral) when either side is
unspecified. -/
def salaryScore (p : UserJobPreference) (j : Job) : Nat :=
  match p.min_salary, p.max_salary, j.salary_min, j.salary_max with
  | some umin, some umax, some jmin, some jmax =>
      if umin ≤ jmin ∧ jmax ≤ umax then 100
      else if jmin ≤ umin ∧ umax ≤ jmax then 100
      else 100 * (min umax jmax - max umin jmin) / max 1 (jmax - jmin)
  | _, _, _, _ => 50

/-- Distance between two experience levels on the ordered scale. -/
def levelDistance (a b : ExperienceLevel) : Nat :=
  max a.rank b.rank - min a.rank b.rank

/-- Modelled from the spec: experience sub-score, 100 on exact level match and
decreasing credit 70/40/10 per level of distance. -/
def experienceScore (p : UserJobPreference) (j : Job) : Nat :=
  match levelDistance p.experience_level j.experience_level with
  | 0 => 100
  | 1 => 70
  | 2 => 40
  | 3 => 10
  | _ => 0

/-- Modelled from the spec: industry credit, full when the user has no industry
constraint or the job's industry is preferred. -/
def industryScore (p : UserJobPreference) (j : Job) : Nat :=
  if p.preferred_industries = [] ∨ p.preferred_industries.contains j.industry
  then 100 else 0

/-- Modelled from the spec: company-size credit, full when unconstrained or
matching. -/
def companySizeScore (p : UserJobPreference) (j : Job) : Nat :=
  if p.preferred_company_sizes = [] ∨
     p.preferred_company_sizes.contains j.company_size
  then 100 else 0

/-- Modelled from the spec: company sub-score, the average of industry and
company-size credit. -/
def companyScore (p : UserJobPreference) (j : Job) : Nat :=
  (industryScore p j + companySizeScore p j) / 2

/-- The category sub-score map (the `score_breakdown` of a recommendation). -/
def subScore (p : UserJobPreference) (j : Job) : Category → Nat
  | .skills => skillsScore p j
  | .location => locationScore p j
  | .salary => salaryScore p j
  | .experience => experienceScore p j
  | .company => companyScore p j

/-- Modelled from the spec: weighted total before penalty, times 100
(so 0-10000). -/
def rawTotalT100 (p : UserJobPreference) (j : Job) : Nat :=
  (Category.all.map (fun c => weight c * subScore p j c)).sum

/-- Modelled from the spec: number of `avoid_keywords` terms found in the job's
title/description/requirements text. -/
def avoidFound (p : UserJobPreference) (j : Job) : Nat :=
  (p.avoid_keywords.filter
    (fun k => strOccurs j.title k || strOccurs j.description k ||
              strOccurs j.requirements k)).length

/-- Modelled from the spec: avoid-keyword penalty, up to 20 points, times 100,
proportional to the fraction of avoid terms found. -/
def penaltyT100 (p : UserJobPreference) (j : Job) : Nat :=
  2000 * avoidFound p j / max 1 p.avoid_keywords.length

/-- Modelled from the spec: final match score.  Weighted sum reduced by the
penalty with the floor capped at 0 (natural subtraction), rounded to the
nearest integer and clamped to [0, 100]. -/
def matchScore (p : UserJobPreference) (j : Job) : Nat :=
  min 100 ((rawTotalT100 p j - penaltyT100 p j + 50) / 100)

/-! ### Match reasons (modelled from the spec, section 4.2) -/

/-- Weighted contribution of a category to the total. -/
def contribution (p : UserJobPreference) (j : Job) (c : Category) : Nat :=
  weight c * subScore p j c

/-- Sort key for reason selection: contribution first, ties broken by the
category priority order (encoded so that a larger key wins). -/
def reasonKey (p : UserJobPreference) (j : Job) (c : Category) : Nat :=
  contribution p j c * 8 + (7 - priorityRank c)

/-- Categories eligible to be cited: sub-score at or above the low-value
threshold of 40. -/
def qualifying (p : UserJobPreference) (j : Job) : List Category :=
  Category.all.filter (fun c => 40 ≤ subScore p j c)

/-- Ordering relation for reason selection: higher key first. -/
def reasonLE (p : UserJobPreference) (j : Job) (a b : Category) : Prop :=
  reasonKey p j b ≤ reasonKey p j a

instance (p : UserJobPreference) (j : Job) : DecidableRel (reasonLE p j) :=
  fun a b => Nat.decLe (reasonKey p j b) (reasonKey p j a)

instance (p : UserJobPreference) (j : Job) : IsTotal Category (reasonLE p j) :=
  ⟨fun a b => (Nat.le_total (reasonKey p j b) (reasonKey p j a)).imp id id⟩

instance (p : UserJobPreference) (j : Job) : IsTrans Category (reasonLE p j) :=
  ⟨fun _ _ _ h₁ h₂ => Nat.le_trans h₂ h₁⟩

/-- Modelled from the spec: the cited reason categories, the highest
contributing qualifying categories (ties by priority), at most four. -/
def matchReasons (p : UserJobPreference) (j : Job) : List Category :=
  (List.insertionSort (reasonLE p j) (qualifying p j)).take 4

/-- Templated reason sentence for a category. -/
def reasonText (p : UserJobPreference) (j : Job) : Category → String
  | .skills =>
      let n := countMatched p.key_skills j.required_skills
      s!"Matches {n} of your key skills"
  | .location => "Located in your preferred area"
  | .salary => "Salary fits your expectations"
  | .experience => "Matches your experience level"
  | .company => "Company profile fits your preferences"

/-- Result of scoring one candidate job. -/
structure ScoreResult where
  total : Nat
  score_breakdown : Category → Nat
  match_reasons : List Category
  reason_texts : List String

/-- Modelled from the spec: the ScoringEngine as a pure function of
(preferences, profile, job).  The section 4.2 signals are defined over the
stored preferences; the profile is an input of the engine but contributes no
further signal in the table. -/
def scoreJob (p : UserJobPreference) (_prof : Profile) (j : Job) : ScoreResult :=
  { total := matchScore p j
    score_breakdown := subScore p j
    match_reasons := matchReasons p j
    reason_texts := (matchReasons p j).map (reasonText p j) }

/-! ### Concrete example inputs (spec section 8 scenario) -/

/-- The example preferences from spec section 8. -/
def pEx : UserJobPreference :=
  { preferred_locations := []
    open_to_remote := false
    open_to_hybrid := false
    preferred_industries := []
    preferred_company_sizes := []
    experience_level := .mid
    min_salary := some 30000
    max_salary := some 50000
    key_skills := ["Python", "React"]
    avoid_keywords := []
    requires_sponsorship := true
    max_recommendations := 10 }

/-- A profile for the example scenario. -/
def profEx : Profile :=
  { skills := ["Python", "React"], experience_level := .mid }

/-- The example job from spec section 8. -/
def jEx : Job :=
  { id := 1
    title := "Backend Engineer"
    description := "Django services"
    requirements := "Python and Django"
    location := "London"
    location_type := .on_site
    salary_min := some 35000
    salary_max := some 45000
    required_skills := ["Python", "Django"]
    experience_level := .mid
    industry := "Tech"
    company_size := "51-200"
    visa_sponsorship_available := true
    is_featured := false }

/-! ### Sub-score bound lemmas -/

lemma scaled_div_le (x d : Nat) (h : x ≤ d) : 100 * x / max 1 d ≤ 100 := by
  have hx : x ≤ max 1 d := by omega
  have hd : 0 < max 1 d := by omega
  calc 100 * x / max 1 d
      ≤ 100 * max 1 d / max 1 d := Nat.div_le_div_right (Nat.mul_le_mul_left 100 hx)
    _ = 100 := Nat.mul_div_cancel 100 hd

lemma skillsScore_le (p : UserJobPreference) (j : Job) : skillsScore p j ≤ 100 := by
  unfold skillsScore
  refine scaled_div_le _ _ ?_
  exact List.length_filter_le (fun s => p.key_skills.contains s) j.required_skills

lemma locationScore_le (p : UserJobPreference) (j : Job) : locationScore p j ≤ 100 := by
  unfold locationScore
  repeat' split
  all_goals omega

lemma salaryScore_le (p : UserJobPreference) (j : Job) : salaryScore p j ≤ 100 := by
  unfold salaryScore
  split
  · split
    · omega
    · split
      · omega
      · exact scaled_div_le _ _ (by omega)
  · omega

lemma experienceScore_le (p : UserJobPreference) (j : Job) :
    experienceScore p j ≤ 100 := by
  unfold experienceScore
  repeat' split
  all_goals omega

lemma companyScore_le (p : UserJobPreference) (j : Job) : companyScore p j ≤ 100 := by
  have h1 : industryScore p j ≤ 100 := by unfold industryScore; split <;> omega
  have h2 : companySizeScore p j ≤ 100 := by
    unfold companySizeScore; split <;> omega
  unfold companyScore
  omega

lemma subScore_le (p : UserJobPreference) (j : Job) (c : Category) :
    subScore p j c ≤ 100 := by
  cases c with
  | skills => exact skillsScore_le p j
  | location => exact locationScore_le p j
  | salary => exact salaryScore_le p j
  | experience => exact experienceScore_le p j
  | company => exact companyScore_le p j

/-! ### Claims about the ScoringEngine -/

/-- C1: scoring is a pure two-run-deterministic function of
(preferences, profile, job): identical inputs always yield the identical
match score, category breakdown and match reasons, with no randomness and no
hidden mutable state. -/
theorem scoring_deterministic (p₁ p₂ : UserJobPreference) (prof₁ prof₂ : Profile)
    (j₁ j₂ : Job) (hp : p₁ = p₂) (hprof : prof₁ = prof₂) (hj : j₁ = j₂) :
    scoreJob p₁ prof₁ j₁ = scoreJob p₂ prof₂ j₂ := by
  subst hp; subst hprof; subst hj; rfl

/-- Witness for C1 at the concrete section 8 scenario. -/
theorem scoring_deterministic_witness :
    scoreJob pEx profEx jEx = scoreJob pEx profEx jEx :=
  scoring_deterministic pEx pEx profEx profEx jEx jEx rfl rfl rfl

/-- C3: the total match score is an integer in [0, 100] and each of the five
category sub-scores is in [0, 100]; the avoid-keyword penalty (up to 20
points, floored at 0 by natural subtraction) never drives the total below 0. -/
theorem score_bounds (p : UserJobPreference) (prof : Profile) (j : Job) :
    (scoreJob p prof j).total ≤ 100 ∧
    ∀ c : Category, (scoreJob p prof j).score_breakdown c ≤ 100 := by
  refine ⟨?_, fun c => subScore_le p j c⟩
  exact Nat.min_le_left 100 _

/-- Witness for C3 at the concrete section 8 scenario (the binders of
`score_bounds` are data, not hypotheses; this instantiates it anyway). -/
theorem score_bounds_witness :
    (scoreJob pEx profEx jEx).total ≤ 100 :=
  (score_bounds pEx profEx jEx).1

/-- C9: on the fixed spec section 8 example input, the engine yields skills
sub-score 50, salary sub-score 100, experience sub-score 100, and a total
equal to the weighted sum under the section 4.2 weights (skills 30,
location 20, salary 20, experience 15, company 15 percent). -/
theorem example_scenario_scores :
    (scoreJob pEx profEx jEx).score_breakdown .skills = 50 ∧
    (scoreJob pEx profEx jEx).score_breakdown .salary = 100 ∧
    (scoreJob pEx profEx jEx).score_breakdown .experience = 100 ∧
    (scoreJob pEx profEx jEx).total * 100 =
      30 * (scoreJob pEx profEx jEx).score_breakdown .skills +
      20 * (scoreJob pEx profEx jEx).score_breakdown .location +
      20 * (scoreJob pEx profEx jEx).score_breakdown .salary +
      15 * (scoreJob pEx profEx jEx).score_breakdown .experience +
      15 * (scoreJob pEx profEx jEx).score_breakdown .company := by
  refine ⟨rfl, rfl, rfl, ?_⟩
  rfl

/-! ### Match-reason selection properties (claim C8) -/

lemma priorityRank_le_four (c : Category) : priorityRank c ≤ 4 := by
  cases c <;> simp [priorityRank]

lemma reasonKey_le_decode (p : UserJobPreference) (j : Job) {a b : Category}
    (h : reasonKey p j b ≤ reasonKey p j a) :
    contribution p j b < contribution p j a ∨
      (contribution p j b = contribution p j a ∧ priorityRank a ≤ priorityRank b) := by
  have ha := priorityRank_le_four a
  have hb := priorityRank_le_four b
  unfold reasonKey at h
  omega

lemma mem_qualifying_iff (p : UserJobPreference) (j : Job) (c : Category) :
    c ∈ qualifying p j ↔ 40 ≤ subScore p j c := by
  unfold qualifying
  constructor
  · intro h
    exact of_decide_eq_true (List.mem_filter.mp h).2
  · intro h
    refine List.mem_filter.mpr ⟨?_, decide_eq_true h⟩
    cases c <;> simp [Category.all]

/-- A job for which every category scores below the threshold of 40: no skills
overlap, non-matching on-site location, disjoint salary ranges, maximal
experience distance, and non-matching industry and company size. -/
def pCx : UserJobPreference :=
  { preferred_locations := ["London"]
    open_to_remote := false
    open_to_hybrid := false
    preferred_industries := ["Finance"]
    preferred_company_sizes := ["11-50"]
    experience_level := .entry
    min_salary := some 10000
    max_salary := some 20000
    key_skills := ["Python"]
    avoid_keywords := []
    requires_sponsorship := false
    max_recommendations := 10 }

/-- Profile for the all-low-score scenario. -/
def profCx : Profile :=
  { skills := ["Python"], experience_level := .entry }

/-- The all-low-score job. -/
def jCx : Job :=
  { id := 2
    title := "Chief Executive"
    description := "Lead the firm"
    requirements := "Java"
    location := "Leeds"
    location_type := .on_site
    salary_min := some 50000
    salary_max := some 60000
    required_skills := ["Java"]
    experience_level := .executive
    industry := "Tech"
    company_size := "1000+"
    visa_sponsorship_available := false
    is_featured := false }

/-- C8 counterexample: on the all-low-score input every category sub-score is
below 40, so the generated `match_reasons` list is empty — it does not contain
between 1 and 4 entries as the claim states. -/
theorem match_reasons_lower_bound_fails :
    ¬ (1 ≤ (scoreJob pCx profCx jCx).match_reasons.length ∧
       (scoreJob pCx profCx jCx).match_reasons.length ≤ 4) := by
  decide

/-- C8 (amended): `match_reasons` contains between 0 and 4 entries, is
non-empty whenever some category reaches the threshold, never cites a category
whose sub-score is below 40, and every cited category dominates every
non-cited qualifying category in contribution, with ties broken by the
priority order skills > location > salary > experience > company. -/
theorem match_reasons_spec (p : UserJobPreference) (prof : Profile) (j : Job) :
    (scoreJob p prof j).match_reasons.length ≤ 4 ∧
    (∀ c ∈ (scoreJob p prof j).match_reasons,
      40 ≤ (scoreJob p prof j).score_breakdown c) ∧
    (qualifying p j ≠ [] → (scoreJob p prof j).match_reasons ≠ []) ∧
    (∀ c ∈ (scoreJob p prof j).match_reasons, ∀ c' ∈ qualifying p j,
      c' ∉ (scoreJob p prof j).match_reasons →
      contribution p j c' < contribution p j c ∨
        (contribution p j c' = contribution p j c ∧
          priorityRank c ≤ priorityRank c')) := by
  simp only [scoreJob]
  have hperm := List.perm_insertionSort (reasonLE p j) (qualifying p j)
  refine ⟨?_, ?_, ?_, ?_⟩
  · unfold matchReasons
    simp [List.length_take]
  · intro c hc
    have hS : c ∈ List.insertionSort (reasonLE p j) (qualifying p j) :=
      List.mem_of_mem_take hc
    have hq : c ∈ qualifying p j := hperm.mem_iff.mp hS
    exact (mem_qualifying_iff p j c).mp hq
  · intro hne hnil
    have h0 : (matchReasons p j).length = 0 := by rw [hnil]; rfl
    have hlen : (matchReasons p j).length = min 4 (qualifying p j).length := by
      unfold matchReasons
      rw [List.length_take, List.length_insertionSort]
    have hpos : 0 < (qualifying p j).length := List.length_pos.mpr hne
    omega
  · intro c hc c' hq' hnc'
    have hsorted : List.Sorted (reasonLE p j)
        (List.insertionSort (reasonLE p j) (qualifying p j)) :=
      List.sorted_insertionSort (reasonLE p j) (qualifying p j)
    have hS' : c' ∈ List.insertionSort (reasonLE p j) (qualifying p j) :=
      hperm.mem_iff.mpr hq'
    have hdrop : c' ∈ (List.insertionSort (reasonLE p j) (qualifying p j)).drop 4 := by
      have hsplit := List.take_append_drop 4
        (List.insertionSort (reasonLE p j) (qualifying p j))
      rw [← hsplit] at hS'
      rcases List.mem_append.mp hS' with h | h
      · exact absurd h hnc'
      · exact h
    have hP : List.Pairwise (reasonLE p j)
        ((List.insertionSort (reasonLE p j) (qualifying p j)).take 4 ++
         (List.insertionSort (reasonLE p j) (qualifying p j)).drop 4) := by
      rw [List.take_append_drop]
      exact hsorted
    have hrel : reasonLE p j c c' :=
      (List.pairwise_append.mp hP).2.2 c hc c' hdrop
    exact reasonKey_le_decode p j hrel

/-- Witness for C8 at the section 8 scenario: the location category is cited
(sub-score at the threshold or above), and the cited skills category dominates
the non-cited company category via the priority tie-break. -/
theorem match_reasons_spec_witness :
    40 ≤ (scoreJob pEx profEx jEx).score_breakdown .location ∧
    (contribution pEx jEx .company < contribution pEx jEx .skills ∨
      (contribution pEx jEx .company = contribution pEx jEx .skills ∧
        priorityRank .skills ≤ priorityRank .company)) :=
  ⟨(match_reasons_spec pEx profEx jEx).2.1 .location (by decide),
   (match_reasons_spec pEx profEx jEx).2.2.2 .skills (by decide) .company
     (by decide) (by decide)⟩

/-! ### Stored recommendations and interaction state

`RecommendationRecord` embeds the interaction-relevant fields of a
`JobRecommendation` row; `updateFeedback` is the state update performed by
`handleFeedback` in src/frontend/src/app/recommendations/page.tsx. -/

/-- Interaction state of one stored recommendation. -/
structure RecommendationRecord where
  id : Nat
  viewed : Bool
  clicked : Bool
  applied : Bool
  feedback : Option FeedbackValue
  feedback_notes : Option String
deriving DecidableEq, Repr

/-- From page.tsx `handleFeedback`: map over the list, replacing the feedback
value and notes on the record with the matching id, leaving the rest alone. -/
def updateFeedback (recs : List RecommendationRecord) (rid : Nat)
    (fb : FeedbackValue) (notes : Option String) : List RecommendationRecord :=
  recs.map fun r =>
    if r.id = rid then { r with feedback := some fb, feedback_notes := notes }
    else r

/-- C6: submitting feedback twice in succession on the same recommendation
leaves exactly the second submission's value and notes (the later write
overwrites the earlier, no history survives), and no new entity is created:
the list keeps its length and its record ids. -/
theorem feedback_overwrite (recs : List RecommendationRecord) (rid : Nat)
    (f₁ f₂ : FeedbackValue) (n₁ n₂ : Option String) :
    updateFeedback (updateFeedback recs rid f₁ n₁) rid f₂ n₂ =
      updateFeedback recs rid f₂ n₂ ∧
    (updateFeedback recs rid f₂ n₂).length = recs.length ∧
    (updateFeedback recs rid f₂ n₂).map (fun r => r.id) =
      recs.map (fun r => r.id) := by
  refine ⟨?_, by simp [updateFeedback], ?_⟩
  · unfold updateFeedback
    rw [List.map_map]
    congr 1
    funext r
    by_cases h : r.id = rid <;> simp [Function.comp, h]
  · unfold updateFeedback
    rw [List.map_map]
    congr 1
    funext r
    by_cases h : r.id = rid <;> simp [Function.comp, h]

/-! ### Flag monotonicity (claim C7) -/

/-- Pointwise flag order: every interaction flag that is true on the left is
still true on the right. -/
def flagLe (a b : RecommendationRecord) : Bool :=
  (!a.viewed || b.viewed) && (!a.clicked || b.clicked) && (!a.applied || b.applied)

/-- The operations that mutate stored recommendations.  `click` is the page's
click handler (page.tsx `handleRecommendationClick`); `view` and `markClick`
are modelled from the spec (`markViewed`/`markClicked`, set-once);
`feedbackOp` is the page's `handleFeedback` update. -/
inductive RecOp
  | click (rid : Nat)
  | view (rid : Nat)
  | markClick (rid : Nat)
  | feedbackOp (rid : Nat) (fb : FeedbackValue) (notes : Option String)

/-- Effect of each operation on the stored recommendation list. -/
def applyOp : RecOp → List RecommendationRecord → List RecommendationRecord
  | .click rid, recs =>
      recs.map fun r => if r.id = rid then { r with clicked := true } else r
  | .view rid, recs =>
      recs.map fun r => if r.id = rid then { r with viewed := true } else r
  | .markClick rid, recs =>
      recs.map fun r => if r.id = rid then { r with clicked := true } else r
  | .feedbackOp rid fb n, recs => updateFeedback recs rid fb n

lemma all_zip_map {α : Type} (l : List α) (f : α → α) (q : α × α → Bool)
    (h : ∀ a, q (a, f a) = true) : ((l.zip (l.map f)).all q) = true := by
  induction l with
  | nil => rfl
  | cons a rest ih => simp [h a, ih]

/-- C7: every mutation operation — including the page's click handler — only
ever changes the `viewed`/`clicked`/`applied` flags from false to true: a flag
that is true on a record stays true on the corresponding record afterwards. -/
theorem flags_monotonic (op : RecOp) (recs : List RecommendationRecord) :
    ((recs.zip (applyOp op recs)).all fun ab => flagLe ab.1 ab.2) = true := by
  cases op with
  | click rid =>
      apply all_zip_map
      intro r
      by_cases h : r.id = rid <;> simp [flagLe, h]
  | view rid =>
      apply all_zip_map
      intro r
      by_cases h : r.id = rid <;> simp [flagLe, h]
  | markClick rid =>
      apply all_zip_map
      intro r
      by_cases h : r.id = rid <;> simp [flagLe, h]
  | feedbackOp rid fb n =>
      apply all_zip_map
      intro r
      by_cases h : r.id = rid <;> simp [flagLe, updateFeedback, h]

/-! ### ApiClient surface (claim C2)

Embeds the method names of the `ApiClient` class in
src/frontend/src/lib/api.ts and the apiClient methods invoked by
`RecommendationsPage` in src/frontend/src/app/recommendations/page.tsx. -/

/-- Every method defined on the `ApiClient` class in api.ts. -/
def apiClientMethods : List String :=
  ["setToken", "getHeaders", "request", "login", "register", "logout",
   "getCurrentUser", "updateProfile", "getJobs", "getJob", "getFeaturedJobs",
   "searchJobs", "getCompanies", "getCompany", "getFeaturedCompanies",
   "searchCompanies", "getApplications", "getApplication", "applyToJob",
   "withdrawApplication", "isAuthenticated"]

/-- The apiClient methods the recommendations page invokes. -/
def recommendationsPageApiCalls : List String :=
  ["getRecommendations", "getRecommendationStats", "getUserPreferences",
   "generateRecommendations", "clickRecommendation",
   "submitRecommendationFeedback", "updateUserPreferences"]

/-- C2: the claim that every recommendations method invoked by the page is
defined on the `ApiClient` class fails: none of the seven invoked methods is
defined there, so each of these call sites invokes an undefined function at
runtime. -/
theorem recommendation_methods_missing :
    (recommendationsPageApiCalls.all
      (fun m => !(apiClientMethods.contains m))) = true := by
  decide

/-! ### Generation limit (claim C4) -/

/-- A scored candidate entering the truncation step of generation. -/
structure RankedCandidate where
  job_id : Nat
  score : Nat
deriving DecidableEq, Repr

/-- Modelled from the spec: the truncation limit of a generation request is
the caller-chosen limit when one is given, else the user's
`max_recommendations` preference. -/
def effectiveLimit (p : UserJobPreference) (limit : Option Nat) : Nat :=
  limit.getD p.max_recommendations

/-- Modelled from the spec: truncation of the ranked candidate list performed
by `generate_recommendations`. -/
def generate_recommendations (p : UserJobPreference)
    (ranked : List RankedCandidate) (limit : Option Nat) :
    List RankedCandidate :=
  ranked.take (effectiveLimit p limit)

/-- From page.tsx line 63: the limit the page passes is
`preferences?.max_recommendations || 10` (10 when preferences are absent or
the stored value is the falsy 0). -/
def pageLimit (preferences : Option UserJobPreference) : Nat :=
  match preferences with
  | some p => if p.max_recommendations ≠ 0 then p.max_recommendations else 10
  | none => 10

/-- C4: a generation request without an explicit caller-chosen limit truncates
to the user's `max_recommendations`; the page's own request (which always
passes an explicit limit) also equals `max_recommendations` whenever
preferences are loaded with a non-zero value. -/
theorem default_limit_is_max_recommendations (p : UserJobPreference)
    (ranked : List RankedCandidate) :
    effectiveLimit p none = p.max_recommendations ∧
    generate_recommendations p ranked none =
      ranked.take p.max_recommendations ∧
    (generate_recommendations p ranked none).length ≤ p.max_recommendations ∧
    (p.max_recommendations ≠ 0 →
      pageLimit (some p) = p.max_recommendations) := by
  refine ⟨rfl, rfl, ?_, ?_⟩
  · exact List.length_take_le _ _
  · intro h
    simp [pageLimit, h]

/-- Witness for C4 at the section 8 preferences (max_recommendations = 10). -/
theorem default_limit_witness :
    effectiveLimit pEx none = pEx.max_recommendations ∧
    pageLimit (some pEx) = pEx.max_recommendations :=
  ⟨(default_limit_is_max_recommendations pEx []).1,
   (default_limit_is_max_recommendations pEx []).2.2.2 (by decide)⟩

/-! ### Feedback submission validation (claim C5) -/

/-- A feedback payload as submitted by the modal. -/
structure FeedbackSubmission where
  feedback : FeedbackValue
  feedback_notes : Option String
deriving DecidableEq, Repr

/-- From FeedbackModal.tsx `handleSubmit`: the form submits only when a
feedback option is selected; trimmed-empty notes become absent
(`notes.trim() || undefined`). -/
def handleSubmit (selectedFeedback : Option FeedbackValue) (notes : String) :
    Option FeedbackSubmission :=
  match selectedFeedback with
  | none => none
  | some fb =>
      some { feedback := fb
             feedback_notes :=
               if notes.trim = "" then none else some notes.trim }

/-- Parse a wire feedback string into the four-value enum. -/
def parseFeedback : String → Option FeedbackValue
  | "helpful" => some .helpful
  | "not_helpful" => some .not_helpful
  | "not_interested" => some .not_interested
  | "already_applied" => some .already_applied
  | _ => none

/-- Offending-field name reported for an invalid feedback value. -/
def feedbackField : String := "feedback"

/-- Offending-field name reported for over-long notes. -/
def feedbackNotesField : String := "feedback_notes"

/-- Modelled from the spec: `submitFeedback` validates that the feedback value
is one of the four enum values and notes are at most 500 characters, failing
with a ValidationError naming the offending field before any mutation;
on success it overwrites the recommendation's feedback (last write wins). -/
def submit_feedback (recs : List RecommendationRecord) (rid : Nat)
    (fb : String) (notes : String) :
    Except String (List RecommendationRecord) :=
  match parseFeedback fb with
  | none => .error feedbackField
  | some v =>
      if 500 < notes.length then .error feedbackNotesField
      else .ok (updateFeedback recs rid v (some notes))

/-- Is the result a success? -/
def isOkResult : Except String (List RecommendationRecord) → Bool
  | .ok _ => true
  | .error _ => false

/-- Modelled from the spec: store state after a submitFeedback call; a
rejected call leaves the stored set unchanged. -/
def applySubmitFeedback (recs : List RecommendationRecord) (rid : Nat)
    (fb : String) (notes : String) : List RecommendationRecord :=
  match submit_feedback recs rid fb notes with
  | .ok r => r
  | .error _ => recs

/-- C5: the modal never submits without a selected feedback value, and the
engine rejects a submission whose feedback value is outside the four-element
enum or whose notes exceed 500 characters before any state mutation; a valid
submission overwrites the targeted recommendation's feedback. -/
theorem feedback_validation (recs : List RecommendationRecord) (rid : Nat)
    (fb : String) (notes notes' : String) :
    handleSubmit none notes' = none ∧
    ((parseFeedback fb = none ∨ 500 < notes.length) →
      isOkResult (submit_feedback recs rid fb notes) = false ∧
      applySubmitFeedback recs rid fb notes = recs) ∧
    (∀ v, parseFeedback fb = some v → notes.length ≤ 500 →
      submit_feedback recs rid fb notes =
        .ok (updateFeedback recs rid v (some notes))) := by
  refine ⟨rfl, ?_, ?_⟩
  · intro h
    cases hpf : parseFeedback fb with
    | none =>
        simp [applySubmitFeedback, submit_feedback, hpf, isOkResult]
    | some v =>
        rcases h with hnone | hlen
        · rw [hpf] at hnone
          exact absurd hnone (by simp)
        · simp [applySubmitFeedback, submit_feedback, hpf, hlen, isOkResult]
  · intro v hv hle
    have hnl : ¬ 500 < notes.length := by omega
    simp [submit_feedback, hv, hnl]

/-- An out-of-enum wire value used as C5 witness input. -/
def bogusFeedback : String := "bogus"

/-- The empty string. -/
def emptyStr : String := ""

/-- Witness for C5: the out-of-enum value `bogus` is rejected with no state
mutation, on the empty store. -/
theorem feedback_validation_witness :
    isOkResult (submit_feedback [] 1 bogusFeedback emptyStr) = false ∧
    applySubmitFeedback [] 1 bogusFeedback emptyStr = [] :=
  (feedback_validation [] 1 bogusFeedback emptyStr emptyStr).2.1 (Or.inl rfl)

/-! ### Preference validation (claim C10) -/

/-- Offending-field name reported for an out-of-range max_recommendations. -/
def maxRecField : String := "max_recommendations"

/-- Modelled from the spec: `update_preferences` accepts a
`max_recommendations` value only when it is an integer between 1 and 50
inclusive, failing with a ValidationError naming the field otherwise. -/
def update_max_recommendations (stored : UserJobPreference) (v : Int) :
    Except String UserJobPreference :=
  if 1 ≤ v ∧ v ≤ 50 then
    .ok { stored with max_recommendations := v.toNat }
  else .error maxRecField

/-- Modelled from the spec: the stored preference after an update attempt; a
rejected update leaves the stored record unchanged. -/
def applyUpdateMaxRec (stored : UserJobPreference) (v : Int) :
    UserJobPreference :=
  match update_max_recommendations stored v with
  | .ok p => p
  | .error _ => stored

/-- C10: `update_preferences` accepts `max_recommendations` exactly on the
integers 1..50; every out-of-range value fails with a ValidationError naming
the field, before any state mutation, leaving the stored preference
unchanged. -/
theorem max_recommendations_validation (stored : UserJobPreference)
    (v : Int) :
    (¬ (1 ≤ v ∧ v ≤ 50) →
      update_max_recommendations stored v = .error maxRecField ∧
      applyUpdateMaxRec stored v = stored) ∧
    ((1 ≤ v ∧ v ≤ 50) →
      (applyUpdateMaxRec stored v).max_recommendations = v.toNat) := by
  constructor
  · intro h
    simp [update_max_recommendations, applyUpdateMaxRec, h]
  · intro h
    simp [update_max_recommendations, applyUpdateMaxRec, h]

/-- Witness for C10: the out-of-range value 51 is rejected and the stored
preference is unchanged. -/
theorem max_recommendations_validation_witness :
    update_max_recommendations pEx 51 = .error maxRecField ∧
    applyUpdateMaxRec pEx 51 = pEx :=
  (max_recommendations_validation pEx 51).1 (by decide)

end Windrush
